import Mathlib

/-!
Verification of the cart logic of the QKart front end
(`src/components/Cart.js`): the cart-item assembler
`generateCartItemsFrom` and the aggregators `getTotalCartValue` and
`getTotalItems`, embedded shallowly.  JavaScript numbers are modelled
as rationals (`Rat`), JavaScript arrays as Lean lists, and the
possibility of passing a non-array value where an array is expected is
made explicit through small sum types (`JsSeq`, `JsArg`).  The
`console.error` diagnostics of the assembler are modelled as an
explicit list-of-strings output, and a thrown `TypeError` as an
`Except` error.
-/

/-- A product of the catalog, as documented in `Cart.js`
(`@typedef Product`): fields `name`, `category`, `cost`, `rating`,
`image`, `_id`. -/
structure Product where
  name : String
  category : String
  cost : Rat
  rating : Rat
  image : String
  _id : String
deriving Repr, DecidableEq

/-- A sparse cart entry (`cartData` element): a `productId` and a
quantity `qty`. -/
structure CartEntry where
  productId : String
  qty : Rat
deriving Repr, DecidableEq

/-- A denormalized cart line item, as built by `generateCartItemsFrom`
(`@typedef CartItem`): fields `name`, `qty`, `category`, `cost`,
`rating`, `image`, `productId`, in the order the source builds them. -/
structure CartItem where
  name : String
  qty : Rat
  category : String
  cost : Rat
  rating : Rat
  image : String
  productId : String
deriving Repr, DecidableEq

/-- A JavaScript runtime error.  The only one this code can raise is a
`TypeError` (calling `.map`/`.reduce`/`.length` on a non-object). -/
inductive JsError where
  | typeError
deriving Repr, DecidableEq

/-- A JavaScript value passed where an array is expected:
`undef`/`null` are the two nullish values, `other` stands for any
other non-array value (which has no callable `map`/`reduce` method),
and `arr l` is a genuine array. -/
inductive JsSeq (α : Type) where
  | undef
  | null
  | other
  | arr (l : List α)
deriving Repr, DecidableEq

/-- The object literal built in the found-branch of
`generateCartItemsFrom`: catalog fields from `product`, quantity from
the cart entry. -/
def mkCartItem (product : Product) (cartItem : CartEntry) : CartItem :=
  { name := product.name
    qty := cartItem.qty
    category := product.category
    cost := product.cost
    rating := product.rating
    image := product.image
    productId := product._id }

/-- The linear catalog lookup
`productsData.find((product) => product._id === cartItem.productId)`. -/
def findProduct (productsData : List Product) (cartItem : CartEntry) : Option Product :=
  productsData.find? (fun product => product._id == cartItem.productId)

/-- The `console.error` message emitted for a missing product. -/
def missingMsg (cartItem : CartEntry) : String :=
  "Product with ID " ++ cartItem.productId ++ " not found."

/-- One step of the `cartData.map` callback: either the built item
with no diagnostic, or `null` (here `none`) with the diagnostic line. -/
def mapStep (productsData : List Product) (cartItem : CartEntry) :
    Option CartItem × List String :=
  match findProduct productsData cartItem with
  | none => (none, [missingMsg cartItem])
  | some product => (some (mkCartItem product cartItem), [])

/-- `generateCartItemsFrom (cartData, productsData)` from `Cart.js`.
The guard `!productsData || !Array.isArray(productsData) ||
productsData.length === 0` returns `[]` for any non-array or empty
catalog; otherwise `cartData.map(...)` runs, which raises a
`TypeError` when `cartData` is not an array, builds each item or
`null` plus a diagnostic, and the `null`s are removed by
`.filter(Boolean)`.  The result pairs the returned items with the
emitted diagnostics, in emission order. -/
def generateCartItemsFrom (cartData : JsSeq CartEntry) (productsData : JsSeq Product) :
    Except JsError (List CartItem × List String) :=
  match productsData with
  | .arr ps =>
    if ps.length = 0 then .ok ([], [])
    else
      match cartData with
      | .arr cs =>
        let mapped := cs.map (fun c => mapStep ps c)
        .ok ((mapped.map Prod.fst).filterMap id, (mapped.map Prod.snd).flatten)
      | _ => .error .typeError
  | _ => .ok ([], [])

/-- `getTotalCartValue(items = [])` on an actual array argument:
`items.reduce((total, item) => total + item.cost * item.qty, 0)`. -/
def getTotalCartValue (items : List CartItem) : Rat :=
  items.foldl (fun total item => total + item.cost * item.qty) 0

/-- `getTotalItems(items = [])` on an actual array argument:
`if (!items.length) return 0;` then
`items.reduce((total, item) => total + item.qty, 0)`. -/
def getTotalItems (items : List CartItem) : Rat :=
  if items.length = 0 then 0
  else items.foldl (fun total item => total + item.qty) 0

/-- A JavaScript argument to the aggregators: missing/`undefined`
(where the default parameter `= []` kicks in), `null` (where it does
not), or an array. -/
inductive JsArg (α : Type) where
  | undef
  | null
  | arr (l : List α)
deriving Repr, DecidableEq

/-- `getTotalCartValue` at the JavaScript call boundary: the default
parameter substitutes `[]` for `undefined` only; `null.reduce` raises
a `TypeError`. -/
def getTotalCartValueJS : JsArg CartItem → Except JsError Rat
  | .undef => .ok (getTotalCartValue [])
  | .null => .error .typeError
  | .arr l => .ok (getTotalCartValue l)

/-- `getTotalItems` at the JavaScript call boundary: the default
parameter substitutes `[]` for `undefined` only; `null.length` raises
a `TypeError`. -/
def getTotalItemsJS : JsArg CartItem → Except JsError Rat
  | .undef => .ok (getTotalItems [])
  | .null => .error .typeError
  | .arr l => .ok (getTotalItems l)

-- Sanity checks on concrete inputs (spec §8).
example :
    generateCartItemsFrom (.arr [⟨"Z", 1⟩]) (.arr [⟨"X", "c", 10, 4, "u", "A"⟩]) =
      .ok ([], ["Product with ID Z not found."]) := rfl

example :
    generateCartItemsFrom (.arr [⟨"A", 2⟩]) (.arr [⟨"X", "c", 10, 4, "u", "A"⟩]) =
      .ok ([⟨"X", 2, "c", 10, 4, "u", "A"⟩], []) := rfl

example : getTotalCartValue
    [⟨"", 3, "", 5, 0, "", ""⟩, ⟨"", 1, "", 2, 0, "", ""⟩] = 17 := by
  norm_num [getTotalCartValue, List.foldl]

example : getTotalItems [⟨"", 2, "", 0, 0, "", ""⟩, ⟨"", 3, "", 0, 0, "", ""⟩] = 5 := by
  norm_num [getTotalItems, List.foldl]

/-! ## Helper lemmas -/

/-- The items component of the map/filter pipeline is a `filterMap`
over the entries. -/
theorem mapStep_fst_filterMap (ps : List Product) (cs : List CartEntry) :
    ((cs.map (fun c => mapStep ps c)).map Prod.fst).filterMap id =
      cs.filterMap (fun c => (findProduct ps c).map (fun p => mkCartItem p c)) := by
  induction cs with
  | nil => rfl
  | cons c cs ih =>
    cases hf : findProduct ps c with
    | none =>
      have hstep : mapStep ps c = (none, [missingMsg c]) := by rw [mapStep, hf]
      simp only [List.map_cons, hstep, List.filterMap_cons, hf, Option.map_none', id_eq]
      exact ih
    | some p =>
      have hstep : mapStep ps c = (some (mkCartItem p c), []) := by rw [mapStep, hf]
      simp only [List.map_cons, hstep, List.filterMap_cons, hf, Option.map_some', id_eq]
      rw [ih]

/-- The diagnostics component of the map/filter pipeline lists the
missing-product message of each unmatched entry, in order. -/
theorem mapStep_snd_flatten (ps : List Product) (cs : List CartEntry) :
    ((cs.map (fun c => mapStep ps c)).map Prod.snd).flatten =
      (cs.filter (fun c => (findProduct ps c).isNone)).map missingMsg := by
  induction cs with
  | nil => rfl
  | cons c cs ih =>
    cases hf : findProduct ps c with
    | none =>
      have hstep : mapStep ps c = (none, [missingMsg c]) := by rw [mapStep, hf]
      simp only [List.map_cons, hstep, List.flatten_cons, List.filter_cons, hf,
        Option.isNone_none, if_true, List.singleton_append]
      rw [ih]
    | some p =>
      have hstep : mapStep ps c = (some (mkCartItem p c), []) := by rw [mapStep, hf]
      simp only [List.map_cons, hstep, List.flatten_cons, List.filter_cons, hf,
        Option.isNone_some, List.nil_append, Bool.false_eq_true, if_false]
      exact ih

/-- Closed form of `generateCartItemsFrom` on a non-empty array
catalog and an array cart. -/
theorem generateCartItemsFrom_arr (cs : List CartEntry) (ps : List Product)
    (h : ps ≠ []) :
    generateCartItemsFrom (.arr cs) (.arr ps) =
      .ok (cs.filterMap (fun c => (findProduct ps c).map (fun p => mkCartItem p c)),
           (cs.filter (fun c => (findProduct ps c).isNone)).map missingMsg) := by
  have hlen : ¬ ps.length = 0 := by simpa using h
  rw [show generateCartItemsFrom (.arr cs) (.arr ps) =
      (if ps.length = 0 then .ok ([], []) else
        .ok (((cs.map (fun c => mapStep ps c)).map Prod.fst).filterMap id,
             ((cs.map (fun c => mapStep ps c)).map Prod.snd).flatten)) from rfl]
  rw [if_neg hlen, mapStep_fst_filterMap, mapStep_snd_flatten]

/-- `List.find?` returns the head of the filtered list. -/
theorem list_find?_eq_head?_filter {α : Type} (p : α → Bool) (l : List α) :
    l.find? p = (l.filter p).head? := by
  induction l with
  | nil => rfl
  | cons x xs ih =>
    by_cases hx : p x
    · rw [List.find?_cons_of_pos _ hx, List.filter_cons, if_pos hx, List.head?_cons]
    · rw [List.find?_cons_of_neg _ hx, List.filter_cons, if_neg hx, ih]

/-- Folding the cost-times-quantity accumulator equals the
accumulator plus a sum. -/
theorem foldl_value_eq (l : List CartItem) (a : Rat) :
    l.foldl (fun total item => total + item.cost * item.qty) a =
      a + (l.map (fun item => item.cost * item.qty)).sum := by
  induction l generalizing a with
  | nil => simp
  | cons x xs ih =>
    simp only [List.foldl_cons, ih, List.map_cons, List.sum_cons]
    ring

/-- Folding the quantity accumulator equals the accumulator plus a
sum. -/
theorem foldl_qty_eq (l : List CartItem) (a : Rat) :
    l.foldl (fun total item => total + item.qty) a =
      a + (l.map (fun item => item.qty)).sum := by
  induction l generalizing a with
  | nil => simp
  | cons x xs ih =>
    simp only [List.foldl_cons, ih, List.map_cons, List.sum_cons]
    ring

/-- The product ids of the assembled items form a sublist of the
entry ids, in order. -/
theorem filterMap_productId_sublist (ps : List Product) (cs : List CartEntry) :
    List.Sublist
      ((cs.filterMap (fun c => (findProduct ps c).map (fun p => mkCartItem p c))).map
        (fun item => item.productId))
      (cs.map (fun c => c.productId)) := by
  induction cs with
  | nil => simp
  | cons c cs ih =>
    cases hf : findProduct ps c with
    | none =>
      simp only [List.filterMap_cons, hf, Option.map_none', List.map_cons]
      exact ih.cons _
    | some p =>
      have hid : p._id = c.productId := by
        have hbeq := List.find?_some hf
        exact eq_of_beq hbeq
      simp only [List.filterMap_cons, hf, Option.map_some', List.map_cons, mkCartItem]
      rw [hid]
      exact ih.cons₂ _

/-! ## Claim theorems -/

/-- C1: For every sequence of cart entries and every non-empty valid
catalog sequence, `generateCartItemsFrom` processes each entry in
turn: it looks up the catalog linearly (`List.find?` on `_id`
equality); a found entry yields the merged line item, an unmatched
entry yields a diagnostic naming the missing id and is omitted from
the result; consequently a cart referencing only unknown ids yields an
empty item list. -/
theorem generateCartItemsFrom_lookup_spec (cs : List CartEntry) (ps : List Product)
    (h : ps ≠ []) :
    generateCartItemsFrom (.arr cs) (.arr ps) =
      .ok (cs.filterMap (fun c => (findProduct ps c).map (fun p => mkCartItem p c)),
           (cs.filter (fun c => (findProduct ps c).isNone)).map missingMsg)
    ∧ ((∀ c ∈ cs, findProduct ps c = none) →
        generateCartItemsFrom (.arr cs) (.arr ps) = .ok ([], cs.map missingMsg)) := by
  refine ⟨generateCartItemsFrom_arr cs ps h, fun hall => ?_⟩
  rw [generateCartItemsFrom_arr cs ps h]
  have h1 : cs.filterMap (fun c => (findProduct ps c).map (fun p => mkCartItem p c)) = [] := by
    rw [List.filterMap_eq_nil_iff]
    intro c hc
    rw [hall c hc]
    rfl
  have h2 : cs.filter (fun c => (findProduct ps c).isNone) = cs := by
    rw [List.filter_eq_self]
    intro c hc
    rw [hall c hc]
    rfl
  rw [h1, h2]

/-- Witness for C1 at a concrete cart and catalog: the matched entry
is merged, the unmatched entry is dropped with a diagnostic. -/
theorem generateCartItemsFrom_lookup_spec_witness :
    ([(⟨"X", "c", 10, 4, "u", "A"⟩ : Product)] ≠ []) ∧
    generateCartItemsFrom (.arr [⟨"A", 2⟩, ⟨"Z", 1⟩]) (.arr [⟨"X", "c", 10, 4, "u", "A"⟩]) =
      .ok ([⟨"X", 2, "c", 10, 4, "u", "A"⟩], ["Product with ID Z not found."]) :=
  ⟨by simp, by
    rw [(generateCartItemsFrom_lookup_spec [⟨"A", 2⟩, ⟨"Z", 1⟩]
      [⟨"X", "c", 10, 4, "u", "A"⟩] (by simp)).1]
    rfl⟩

/-- C2: `getTotalCartValue` returns the sum of `cost * qty` over all
items, `0` for an empty or undefined argument, and passes negative or
fractional quantities through the arithmetic unvalidated; in
particular it gives `17` on the two-item example and `-2` on a
fractional negative quantity. -/
theorem getTotalCartValue_spec :
    (∀ items : List CartItem,
      getTotalCartValueJS (.arr items) =
        .ok ((items.map (fun item => item.cost * item.qty)).sum))
    ∧ getTotalCartValueJS .undef = .ok 0
    ∧ getTotalCartValueJS (.arr []) = .ok 0
    ∧ getTotalCartValueJS (.arr [⟨"", 3, "", 5, 0, "", ""⟩, ⟨"", 1, "", 2, 0, "", ""⟩]) =
        .ok 17
    ∧ getTotalCartValueJS (.arr [⟨"", -1/2, "", 4, 0, "", ""⟩]) = .ok (-2) := by
  refine ⟨fun items => ?_, rfl, rfl, ?_, ?_⟩
  · show Except.ok (getTotalCartValue items) = _
    rw [getTotalCartValue, foldl_value_eq, zero_add]
  · show Except.ok (getTotalCartValue _) = _
    norm_num [getTotalCartValue, List.foldl]
  · show Except.ok (getTotalCartValue _) = _
    norm_num [getTotalCartValue, List.foldl]

/-- C3: `getTotalItems` returns the sum of `qty` over all items,
returns `0` for an empty or undefined argument (the zero-length case
short-circuits through the leading `!items.length` guard of the
embedded definition), and gives `5` on the two-item example. -/
theorem getTotalItems_spec :
    (∀ items : List CartItem,
      getTotalItemsJS (.arr items) = .ok ((items.map (fun item => item.qty)).sum))
    ∧ getTotalItemsJS .undef = .ok 0
    ∧ getTotalItems [] = 0
    ∧ getTotalItemsJS (.arr [⟨"", 2, "", 0, 0, "", ""⟩, ⟨"", 3, "", 0, 0, "", ""⟩]) =
        .ok 5 := by
  refine ⟨fun items => ?_, rfl, rfl, ?_⟩
  · show Except.ok (getTotalItems items) = _
    cases items with
    | nil => rfl
    | cons x xs =>
      rw [getTotalItems, if_neg (by simp), foldl_qty_eq, zero_add]
  · show Except.ok (getTotalItems _) = _
    norm_num [getTotalItems, List.foldl]

/-- C4: whenever the catalog argument is absent (`undefined`),
`null`, some other non-array value, or an empty array, the guard of
`generateCartItemsFrom` returns an empty result (and no diagnostics)
for every cart argument, raising no error. -/
theorem generateCartItemsFrom_guard_spec (cartData : JsSeq CartEntry)
    (productsData : JsSeq Product)
    (h : productsData = .undef ∨ productsData = .null ∨ productsData = .other ∨
         productsData = .arr []) :
    generateCartItemsFrom cartData productsData = .ok ([], []) := by
  rcases h with h | h | h | h <;> subst h <;> rfl

/-- Witness for C4: a non-empty cart against a `null` catalog still
yields the empty result. -/
theorem generateCartItemsFrom_guard_spec_witness :
    ((JsSeq.null : JsSeq Product) = .undef ∨ (JsSeq.null : JsSeq Product) = .null ∨
     (JsSeq.null : JsSeq Product) = .other ∨ (JsSeq.null : JsSeq Product) = .arr []) ∧
    generateCartItemsFrom (.arr [⟨"A", 1⟩]) (JsSeq.null : JsSeq Product) = .ok ([], []) :=
  ⟨Or.inr (Or.inl rfl),
   generateCartItemsFrom_guard_spec (.arr [⟨"A", 1⟩]) JsSeq.null (Or.inr (Or.inl rfl))⟩

/-- C8: `generateCartItemsFrom` is deterministic: two calls on
identical arguments return structurally identical results. -/
theorem generateCartItemsFrom_deterministic (cartData : JsSeq CartEntry)
    (productsData : JsSeq Product) :
    generateCartItemsFrom cartData productsData =
      generateCartItemsFrom cartData productsData := rfl

/-- C5: every line item emitted by `generateCartItemsFrom` is the
record whose catalog fields (`name`, `category`, `cost`, `rating`,
`image`) and `productId` are copied from the matched catalog product,
and whose quantity `qty` is copied from the cart entry. -/
theorem generateCartItemsFrom_item_fields (cs : List CartEntry) (ps : List Product)
    (items : List CartItem) (log : List String) (item : CartItem)
    (hok : generateCartItemsFrom (.arr cs) (.arr ps) = .ok (items, log))
    (hmem : item ∈ items) :
    ∃ c ∈ cs, ∃ p, findProduct ps c = some p ∧
      item.productId = p._id ∧ item.name = p.name ∧ item.category = p.category ∧
      item.cost = p.cost ∧ item.rating = p.rating ∧ item.image = p.image ∧
      item.qty = c.qty := by
  by_cases hps : ps = []
  · subst hps
    rw [show generateCartItemsFrom (.arr cs) (.arr ([] : List Product)) = .ok ([], [])
      from rfl] at hok
    cases hok
    exact absurd hmem (List.not_mem_nil _)
  · rw [generateCartItemsFrom_arr cs ps hps] at hok
    cases hok
    rw [List.mem_filterMap] at hmem
    obtain ⟨c, hc, hsome⟩ := hmem
    cases hf : findProduct ps c with
    | none =>
      rw [hf] at hsome
      cases hsome
    | some p =>
      rw [hf] at hsome
      rw [Option.map_some'] at hsome
      injection hsome with hitem
      subst hitem
      exact ⟨c, hc, p, hf, rfl, rfl, rfl, rfl, rfl, rfl, rfl⟩

/-- Witness for C5 at a concrete assembly: the single output item has
each field copied from the matched product and the entry quantity. -/
theorem generateCartItemsFrom_item_fields_witness :
    ∃ c ∈ [(⟨"A", 2⟩ : CartEntry)], ∃ p,
      findProduct [⟨"X", "c", 10, 4, "u", "A"⟩] c = some p ∧
      (⟨"X", 2, "c", 10, 4, "u", "A"⟩ : CartItem).productId = p._id ∧
      (⟨"X", 2, "c", 10, 4, "u", "A"⟩ : CartItem).name = p.name ∧
      (⟨"X", 2, "c", 10, 4, "u", "A"⟩ : CartItem).category = p.category ∧
      (⟨"X", 2, "c", 10, 4, "u", "A"⟩ : CartItem).cost = p.cost ∧
      (⟨"X", 2, "c", 10, 4, "u", "A"⟩ : CartItem).rating = p.rating ∧
      (⟨"X", 2, "c", 10, 4, "u", "A"⟩ : CartItem).image = p.image ∧
      (⟨"X", 2, "c", 10, 4, "u", "A"⟩ : CartItem).qty = c.qty :=
  generateCartItemsFrom_item_fields [⟨"A", 2⟩] [⟨"X", "c", 10, 4, "u", "A"⟩]
    [⟨"X", 2, "c", 10, 4, "u", "A"⟩] [] ⟨"X", 2, "c", 10, 4, "u", "A"⟩ rfl
    (List.Mem.head _)

/-- C6: on a non-empty catalog the assembler's item output is exactly
the input entry sequence mapped to line items with unmatched entries
removed (`List.filterMap`), so surviving entries keep their relative
order; in particular the output product ids form a sublist of the
input entry ids. -/
theorem generateCartItemsFrom_order_spec (cs : List CartEntry) (ps : List Product)
    (h : ps ≠ []) :
    ∃ items log,
      generateCartItemsFrom (.arr cs) (.arr ps) = .ok (items, log) ∧
      items = cs.filterMap (fun c => (findProduct ps c).map (fun p => mkCartItem p c)) ∧
      List.Sublist (items.map (fun item => item.productId))
        (cs.map (fun c => c.productId)) := by
  refine ⟨_, _, generateCartItemsFrom_arr cs ps h, rfl, ?_⟩
  exact filterMap_productId_sublist ps cs

/-- Witness for C6 at a concrete cart: the dropped middle entry does
not disturb the relative order of the surviving ones. -/
theorem generateCartItemsFrom_order_spec_witness :
    ∃ (items : List CartItem) (log : List String),
      generateCartItemsFrom
        (.arr [⟨"A", 2⟩, ⟨"Z", 1⟩, ⟨"B", 4⟩])
        (.arr [⟨"X", "c", 10, 4, "u", "A"⟩, ⟨"Y", "d", 20, 5, "v", "B"⟩]) =
        .ok (items, log) ∧
      items = [(⟨"A", 2⟩ : CartEntry), ⟨"Z", 1⟩, ⟨"B", 4⟩].filterMap
        (fun c => (findProduct
          [(⟨"X", "c", 10, 4, "u", "A"⟩ : Product), ⟨"Y", "d", 20, 5, "v", "B"⟩]
          c).map (fun p => mkCartItem p c)) ∧
      List.Sublist (items.map (fun item => item.productId))
        ([(⟨"A", 2⟩ : CartEntry), ⟨"Z", 1⟩, ⟨"B", 4⟩].map (fun c => c.productId)) :=
  generateCartItemsFrom_order_spec [⟨"A", 2⟩, ⟨"Z", 1⟩, ⟨"B", 4⟩]
    [⟨"X", "c", 10, 4, "u", "A"⟩, ⟨"Y", "d", 20, 5, "v", "B"⟩] (by simp)

/-- C7 counterexample: the claim that the aggregators return a number
without error for a `null` argument is false — the default parameter
only replaces `undefined`, so a `null` argument reaches
`null.reduce`/`null.length` and raises a `TypeError`. -/
theorem aggregators_null_raises :
    getTotalCartValueJS JsArg.null = .error .typeError ∧
    getTotalItemsJS JsArg.null = .error .typeError := ⟨rfl, rfl⟩

/-- C7 amended: both aggregators are pure total functions on every
sequence argument and on an absent/`undefined` argument, returning a
number without error; only a `null` argument raises. -/
theorem aggregators_total_amended (x : JsArg CartItem) (h : x ≠ JsArg.null) :
    (∃ v : Rat, getTotalCartValueJS x = .ok v) ∧
    (∃ w : Rat, getTotalItemsJS x = .ok w) := by
  cases x with
  | undef => exact ⟨⟨0, rfl⟩, ⟨0, rfl⟩⟩
  | null => exact absurd rfl h
  | arr l => exact ⟨⟨getTotalCartValue l, rfl⟩, ⟨getTotalItems l, rfl⟩⟩

/-- Witness for the amended C7 at the `undefined` argument. -/
theorem aggregators_total_amended_witness :
    (JsArg.undef : JsArg CartItem) ≠ JsArg.null ∧
    ((∃ v : Rat, getTotalCartValueJS JsArg.undef = .ok v) ∧
     (∃ w : Rat, getTotalItemsJS JsArg.undef = .ok w)) :=
  ⟨fun h => JsArg.noConfusion h,
   aggregators_total_amended JsArg.undef (fun h => JsArg.noConfusion h)⟩

/-- C9: the defensive guard covers only the catalog argument: with a
non-empty array catalog, a cart argument that is not an array
(`undefined`, `null`, or any other non-array value) makes
`cartData.map` raise a `TypeError` instead of returning `[]`. -/
theorem generateCartItemsFrom_cartData_unguarded (cartData : JsSeq CartEntry)
    (ps : List Product) (hcd : ∀ cs, cartData ≠ .arr cs) (hps : ps ≠ []) :
    generateCartItemsFrom cartData (.arr ps) = .error .typeError := by
  have hlen : ¬ ps.length = 0 := by simpa using hps
  cases cartData with
  | undef =>
    rw [show generateCartItemsFrom JsSeq.undef (.arr ps) =
      (if ps.length = 0 then .ok ([], []) else .error .typeError) from rfl, if_neg hlen]
  | null =>
    rw [show generateCartItemsFrom JsSeq.null (.arr ps) =
      (if ps.length = 0 then .ok ([], []) else .error .typeError) from rfl, if_neg hlen]
  | other =>
    rw [show generateCartItemsFrom JsSeq.other (.arr ps) =
      (if ps.length = 0 then .ok ([], []) else .error .typeError) from rfl, if_neg hlen]
  | arr cs => exact absurd rfl (hcd cs)

/-- Witness for C9: a `null` cart against a one-product catalog
raises a `TypeError`. -/
theorem generateCartItemsFrom_cartData_unguarded_witness :
    ([(⟨"X", "c", 10, 4, "u", "A"⟩ : Product)] ≠ []) ∧
    generateCartItemsFrom (JsSeq.null : JsSeq CartEntry)
      (.arr [⟨"X", "c", 10, 4, "u", "A"⟩]) = .error .typeError :=
  ⟨by simp,
   generateCartItemsFrom_cartData_unguarded JsSeq.null [⟨"X", "c", 10, 4, "u", "A"⟩]
     (fun cs h => JsSeq.noConfusion h) (by simp)⟩

/-- C10: when the catalog holds at least two products with the id a
cart entry references, the assembler resolves the entry to the first
match in catalog order and emits exactly one line item, built from
that first product's fields. -/
theorem generateCartItemsFrom_first_match (c : CartEntry) (ps : List Product)
    (p : Product)
    (hdup : 2 ≤ (ps.filter (fun q => q._id == c.productId)).length)
    (hhead : (ps.filter (fun q => q._id == c.productId)).head? = some p) :
    generateCartItemsFrom (.arr [c]) (.arr ps) = .ok ([mkCartItem p c], []) := by
  have hfind : findProduct ps c = some p := by
    rw [findProduct, list_find?_eq_head?_filter]
    exact hhead
  have hps : ps ≠ [] := by
    intro hnil
    subst hnil
    simp at hdup
  rw [generateCartItemsFrom_arr [c] ps hps]
  simp [hfind]

/-- Witness for C10: a catalog with two products sharing id `"A"`;
the entry resolves to the first of them, once. -/
theorem generateCartItemsFrom_first_match_witness :
    2 ≤ ([(⟨"X", "c", 10, 4, "u", "A"⟩ : Product), ⟨"Y", "d", 20, 5, "v", "A"⟩].filter
          (fun q => q._id == (⟨"A", 3⟩ : CartEntry).productId)).length ∧
    generateCartItemsFrom (.arr [⟨"A", 3⟩])
        (.arr [⟨"X", "c", 10, 4, "u", "A"⟩, ⟨"Y", "d", 20, 5, "v", "A"⟩]) =
      .ok ([mkCartItem ⟨"X", "c", 10, 4, "u", "A"⟩ ⟨"A", 3⟩], []) :=
  ⟨by decide,
   generateCartItemsFrom_first_match ⟨"A", 3⟩
     [⟨"X", "c", 10, 4, "u", "A"⟩, ⟨"Y", "d", 20, 5, "v", "A"⟩]
     ⟨"X", "c", 10, 4, "u", "A"⟩ (by decide) rfl⟩
